import Mathlib

/-!
Shallow embedding of the ai-image-generation-backend core
(credit ledger, request orchestrator, report engine) in Lean 4,
translated from `functions/services/credit_service.py`,
`functions/services/report_service.py`,
`functions/validators/request_validator.py` and `functions/main.py`.

Modelling conventions:
* The Firestore document store is modelled as association lists keyed by
  document id; `setDoc` models `DocumentReference.set`/`Transaction.set`
  (overwrite-or-create) and `Transaction.update` on an existing key.
* Python `int` is `Int`; Python counting loops produce `Nat`;
  Python `float` percentage arithmetic is modelled with `Rat`.
* Wall-clock timestamps (`createdAt`, `updatedAt`, `completedAt`) carried
  along by the code are modelled as integers supplied by the caller where a
  claim mentions them and omitted from user documents where no claim does.
* The catch-all `except` blocks that turn store failures into `False`/`0`
  returns are modelled by totality: the pure model has no infrastructure
  failures, so those branches are unreachable.
-/

namespace CaseStudy

/-- The `TransactionType` string enum of `models/transaction.py`. -/
inductive TransactionType where
  | deduction
  | refund
  | credit
deriving DecidableEq, Repr

/-- A `credit_transactions` document, as written by
`CreditTransaction.to_dict` (`models/transaction.py`): `to_dict` includes
`generationRequestId` only when it is truthy, hence the `Option`.
The per-document auto id is the list position; `transactionId` inside the
document mirrors it and is not repeated here. -/
structure CreditTransaction where
  userId : String
  type : TransactionType
  credits : Int
  reason : String
  generationRequestId : Option String
deriving DecidableEq, Repr

/-- `to_dict` drops a falsy `generation_request_id` (empty string / None). -/
def optReqId (g : String) : Option String :=
  if g = "" then none else some g

/-- Overwrite-or-create on an association-list store:
models `set` on a document reference, and `update` when the key exists. -/
def setDoc {α : Type} : List (String × α) → String → α → List (String × α)
  | [], k, v => [(k, v)]
  | (k0, v0) :: rest, k, v =>
      if k0 = k then (k, v) :: rest else (k0, v0) :: setDoc rest k v

/-- The slice of the store owned by `CreditService`: the `users` collection
(userId ↦ credits) and the append-only `credit_transactions` collection. -/
structure LedgerState where
  users : List (String × Int)
  transactions : List CreditTransaction
deriving DecidableEq, Repr

def emptyStore : LedgerState := { users := [], transactions := [] }

/-- `CreditService.get_user_credits`: current balance, 0 when the user
document does not exist. -/
def get_user_credits (s : LedgerState) (userId : String) : Int :=
  match s.users.lookup userId with
  | some c => c
  | none => 0

/-- The `deduction` record built inside `CreditService.deduct_credits`. -/
def deductionRecord (userId : String) (amount : Int)
    (generationRequestId : String) : CreditTransaction :=
  { userId := userId
    type := .deduction
    credits := amount
    reason := s!"Image generation - {amount} credits"
    generationRequestId := optReqId generationRequestId }

/-- `CreditService.deduct_credits`: inside a caller-supplied transaction,
read the user document; if absent or `credits < amount` return `false` with
no writes, else write `credits - amount` and append one deduction record. -/
def deduct_credits (s : LedgerState) (userId : String) (amount : Int)
    (generationRequestId : String) : Bool × LedgerState :=
  match s.users.lookup userId with
  | none => (false, s)
  | some currentCredits =>
      if currentCredits < amount then (false, s)
      else
        (true,
          { users := setDoc s.users userId (currentCredits - amount)
            transactions := s.transactions ++
              [deductionRecord userId amount generationRequestId] })

/-- The `refund` record built inside `CreditService.refund_credits`. -/
def refundRecord (userId : String) (amount : Int)
    (generationRequestId : String) : CreditTransaction :=
  { userId := userId
    type := .refund
    credits := amount
    reason := s!"Refund for failed generation - {amount} credits"
    generationRequestId := optReqId generationRequestId }

/-- `CreditService.refund_credits`: its own transaction; create the user
with `credits = amount` when absent, else add `amount`; always append one
refund record; return `true` (false only on infrastructure failure, which
the pure model does not have). -/
def refund_credits (s : LedgerState) (userId : String) (amount : Int)
    (generationRequestId : String) : Bool × LedgerState :=
  let users2 :=
    match s.users.lookup userId with
    | none => setDoc s.users userId amount
    | some currentCredits => setDoc s.users userId (currentCredits + amount)
  (true,
    { users := users2
      transactions := s.transactions ++
        [refundRecord userId amount generationRequestId] })

/-- The `credit` record built inside `CreditService.create_user_with_credits`. -/
def creditRecord (userId : String) (initialCredits : Int) : CreditTransaction :=
  { userId := userId
    type := .credit
    credits := initialCredits
    reason := s!"Initial credit allocation - {initialCredits} credits"
    generationRequestId := none }

/-- `CreditService.create_user_with_credits`: `set` the user document
(overwriting any existing one — no idempotence) and append one `credit`
record for the initial grant. The optional `email` only adds a metadata
field to the user document and is not modelled. -/
def create_user_with_credits (s : LedgerState) (userId : String)
    (initialCredits : Int) : Bool × LedgerState :=
  (true,
    { users := setDoc s.users userId initialCredits
      transactions := s.transactions ++ [creditRecord userId initialCredits] })

/-- One committed call into the credit ledger, for reasoning about
operation sequences. -/
inductive LedgerOp where
  | create (userId : String) (initialCredits : Int)
  | deduct (userId : String) (amount : Int) (generationRequestId : String)
  | refund (userId : String) (amount : Int) (generationRequestId : String)
deriving DecidableEq, Repr

def applyOp (s : LedgerState) : LedgerOp → LedgerState
  | .create u n => (create_user_with_credits s u n).2
  | .deduct u a g => (deduct_credits s u a g).2
  | .refund u a g => (refund_credits s u a g).2

def applyOps (s : LedgerState) : List LedgerOp → LedgerState
  | [] => s
  | op :: rest => applyOps (applyOp s op) rest

/-- Sum of `credits` over a user's transaction records of one type. -/
def sumByType (txs : List CreditTransaction) (userId : String)
    (t : TransactionType) : Int :=
  ((txs.filter (fun tx => tx.userId = userId ∧ tx.type = t)).map
    (fun tx => tx.credits)).sum

/-! ## Request validator (`validators/request_validator.py`) -/

/-- The ASCII whitespace stripped by Python `str.strip()` (the further
Unicode whitespace Python also strips plays no role in this development). -/
def isPySpace (c : Char) : Bool :=
  c = ' ' || c = '\t' || c = '\n' || c = '\r' || c = '\x0b' || c = '\x0c'

/-- Python `str.strip()` on the character list of a string. -/
def pyStripList (l : List Char) : List Char :=
  ((l.dropWhile isPySpace).reverse.dropWhile isPySpace).reverse

/-- Python `str.strip()`. -/
def pyStrip (s : String) : String := ⟨pyStripList s.data⟩

def VALID_MODELS : List String := ["Model A", "Model B"]

def VALID_STYLES : List String :=
  ["realistic", "anime", "oil painting", "sketch", "cyberpunk", "watercolor"]

def VALID_COLORS : List String :=
  ["vibrant", "monochrome", "pastel", "neon", "vintage"]

def VALID_SIZES : List String := ["512x512", "1024x1024", "1024x1792"]

/-- `RequestValidator.CREDIT_COSTS`. -/
def CREDIT_COSTS : List (String × Int) :=
  [("512x512", 1), ("1024x1024", 3), ("1024x1792", 4)]

/-- `RequestValidator.get_credit_cost`: `CREDIT_COSTS.get(size)`. -/
def get_credit_cost (size : String) : Option Int :=
  CREDIT_COSTS.lookup size

/-- The request body handed to `validate_generation_request`: a dict whose
six relevant keys may each be absent (`Option`). Values are modelled as
strings — the clients of record always send strings, and the validator's
`isinstance(data[field], str)` guard only matters for non-string payloads. -/
structure RequestData where
  userId : Option String
  model : Option String
  style : Option String
  color : Option String
  size : Option String
  prompt : Option String
deriving DecidableEq, Repr

/-- The `{"valid": bool, "error": str?}` dict the validator returns. -/
structure ValidationResult where
  valid : Bool
  error : Option String
deriving DecidableEq, Repr

/-- `RequestValidator.validate_generation_request` in the source's order:
the required-fields loop (presence for all six fields, strip-nonemptiness
for `userId` and `prompt`), then the per-field checks (membership of
model/style/color/size, stripped-prompt length at most 1000). The source
re-checks `userId` and `prompt` nonblankness after the loop with the same
condition and the same error text, so those duplicate branches collapse. -/
def validate_generation_request (data : RequestData) : ValidationResult :=
  match data.userId with
  | none => ⟨false, some "Missing required field: userId"⟩
  | some userId0 =>
    if (pyStrip userId0).isEmpty then ⟨false, some "userId cannot be empty"⟩
    else match data.model with
    | none => ⟨false, some "Missing required field: model"⟩
    | some model => match data.style with
      | none => ⟨false, some "Missing required field: style"⟩
      | some style => match data.color with
        | none => ⟨false, some "Missing required field: color"⟩
        | some color => match data.size with
          | none => ⟨false, some "Missing required field: size"⟩
          | some size => match data.prompt with
            | none => ⟨false, some "Missing required field: prompt"⟩
            | some prompt0 =>
              if (pyStrip prompt0).isEmpty then
                ⟨false, some "Prompt cannot be empty"⟩
              else if !(VALID_MODELS.contains model) then
                ⟨false, some "Invalid model. Must be one of: Model A, Model B"⟩
              else if !(VALID_STYLES.contains style) then
                ⟨false, some "Invalid style. Must be one of: realistic, anime, oil painting, sketch, cyberpunk, watercolor"⟩
              else if !(VALID_COLORS.contains color) then
                ⟨false, some "Invalid color. Must be one of: vibrant, monochrome, pastel, neon, vintage"⟩
              else if !(VALID_SIZES.contains size) then
                ⟨false, some "Invalid size. Must be one of: 512x512, 1024x1024, 1024x1792"⟩
              else if (pyStrip prompt0).length > 1000 then
                ⟨false, some "Prompt must be less than 1000 characters"⟩
              else ⟨true, none⟩

/-! ## Request orchestrator (`main.py`, `createGenerationRequest`) -/

/-- The `RequestStatus` string enum of `models/request.py`. -/
inductive RequestStatus where
  | pending
  | completed
  | failed
deriving DecidableEq, Repr

/-- A `generation_requests` document (`models/request.py`,
`GenerationRequest.to_dict`), timestamps as caller-supplied integers. -/
structure GenerationRequest where
  userId : String
  model : String
  style : String
  color : String
  size : String
  prompt : String
  creditsCharged : Int
  status : RequestStatus
  imageUrl : Option String
  error : Option String
  createdAt : Int
  completedAt : Option Int
deriving DecidableEq, Repr

/-- The store slices touched by `createGenerationRequest`: the ledger
collections plus `generation_requests` (requestId ↦ document). -/
structure DbState where
  ledger : LedgerState
  requests : List (String × GenerationRequest)
deriving DecidableEq, Repr

/-- Outcome of the one `GenerationService.generate_image` call: the image
URL it returns, or the message of the exception it raises. -/
inductive GatewayResult where
  | success (imageUrl : String)
  | failure (error : String)
deriving DecidableEq, Repr

/-- The JSON bodies `createGenerationRequest` can answer with. -/
inductive ResponseBody where
  | success (generationRequestId : String) (deductedCredits : Int)
      (imageUrl : String)
  | invalidBody (error : String)
  | insufficientCredits (required : Int) (available : Int)
  | generationFailed (details : String) (creditsRefunded : Int)
  | internalError
deriving DecidableEq, Repr

structure HttpResponse where
  status : Nat
  body : ResponseBody
deriving DecidableEq, Repr

/-- `Transaction.update` applied at an existing request document. -/
def updateRequest (l : List (String × GenerationRequest)) (k : String)
    (f : GenerationRequest → GenerationRequest) :
    List (String × GenerationRequest) :=
  l.map (fun p => if p.1 = k then (p.1, f p.2) else p)

/-- `main.createGenerationRequest` for a POST with a parseable JSON body:
validate; compute the credit cost (a `None` cost would make the Python
`user_credits < credit_cost` comparison raise a `TypeError`, caught by the
top-level handler as a generic 500); pre-check the balance (402); run the
charge transaction (deduct + create the `pending` request document; a
`false` deduction raises, aborting the transaction, again a generic 500);
then call the gateway and either finalize to `completed` (200) or to
`failed` plus a compensating refund (500 with `creditsRefunded`).
`requestId` stands for the fresh auto id of the request document and `now`
for `datetime.now`. -/
def createGenerationRequest (s : DbState) (data : RequestData)
    (requestId : String) (gateway : GatewayResult) (now : Int) :
    HttpResponse × DbState :=
  let v := validate_generation_request data
  if v.valid = false then
    (⟨400, .invalidBody (v.error.getD "")⟩, s)
  else
    let user_id := data.userId.getD ""
    let size := data.size.getD ""
    match get_credit_cost size with
    | none => (⟨500, .internalError⟩, s)
    | some credit_cost =>
      let user_credits := get_user_credits s.ledger user_id
      if user_credits < credit_cost then
        (⟨402, .insufficientCredits credit_cost user_credits⟩, s)
      else
        match deduct_credits s.ledger user_id credit_cost requestId with
        | (false, _) => (⟨500, .internalError⟩, s)
        | (true, ledger2) =>
          let req : GenerationRequest :=
            { userId := user_id
              model := data.model.getD ""
              style := data.style.getD ""
              color := data.color.getD ""
              size := size
              prompt := data.prompt.getD ""
              creditsCharged := credit_cost
              status := .pending
              imageUrl := none
              error := none
              createdAt := now
              completedAt := none }
          let s2 : DbState :=
            { ledger := ledger2, requests := setDoc s.requests requestId req }
          match gateway with
          | .success imageUrl =>
            let finishOk : GenerationRequest → GenerationRequest :=
              fun r => { r with status := .completed,
                                imageUrl := some imageUrl,
                                completedAt := some now }
            let requests3 := updateRequest s2.requests requestId finishOk
            let s3 : DbState := { s2 with requests := requests3 }
            (⟨200, .success requestId credit_cost imageUrl⟩, s3)
          | .failure err =>
            let finishErr : GenerationRequest → GenerationRequest :=
              fun r => { r with status := .failed,
                                error := some err,
                                completedAt := some now }
            let requests3 := updateRequest s2.requests requestId finishErr
            let s3 : DbState := { s2 with requests := requests3 }
            let ledger3 :=
              (refund_credits s3.ledger user_id credit_cost requestId).2
            let s4 : DbState := { s3 with ledger := ledger3 }
            (⟨500, .generationFailed err credit_cost⟩, s4)

/-! ## Report engine (`services/report_service.py`)

Dates are modelled as integer day numbers: `generate_weekly_report` only
ever forms day-truncated datetimes, shifts them by whole days, and compares
them (`isoformat` string equality on such values coincides with datetime
equality). Percentages, computed in Python floats, are modelled as exact
rationals. Anomaly dicts carry heterogeneous keys, hence `Option` fields;
the human-readable `description` strings (pure presentation) are omitted. -/

inductive Severity where
  | low
  | medium
  | high
deriving DecidableEq, Repr

inductive AnomalyType where
  | request_volume_spike
  | high_failure_rate
  | model_imbalance
deriving DecidableEq, Repr

structure Anomaly where
  type : AnomalyType
  severity : Severity
  currentValue : Option Nat
  previousValue : Option Nat
  failureRate : Option ℚ
  model : Option String
  percentage : Option ℚ
deriving DecidableEq, Repr

/-- A prior `weekly_reports` document as read back by the anomaly lookback
(only `weekStartDate` is queried and only `totalRequests` is used). -/
structure WeeklyReportDoc where
  weekStartDate : Int
  totalRequests : Nat
deriving DecidableEq, Repr

/-- The failure-rate percentage `failed_requests / total_requests * 100`. -/
def failureRateOf (totalRequests failedRequests : Nat) : ℚ :=
  (failedRequests : ℚ) / (totalRequests : ℚ) * 100

/-- The `high_failure_rate` anomaly dict built by `_detect_anomalies`. -/
def failureAnomaly (totalRequests failedRequests : Nat) : Anomaly :=
  { type := .high_failure_rate
    severity :=
      if 20 < failureRateOf totalRequests failedRequests then .high
      else .medium
    currentValue := none
    previousValue := none
    failureRate := some (failureRateOf totalRequests failedRequests)
    model := none
    percentage := none }

/-- The high-failure-rate check of `_detect_anomalies`. The source's
`if previous_report:` branch and its `elif` fallback contain this block
verbatim twice; it is factored out once here. -/
def failureAnomalies (totalRequests failedRequests : Nat) : List Anomaly :=
  if 0 < totalRequests then
    if 10 < failureRateOf totalRequests failedRequests then
      [failureAnomaly totalRequests failedRequests]
    else []
  else []

/-- The volume-change percentage
`(total_requests - prev_total) / prev_total * 100`. -/
def changePercentOf (totalRequests prevTotal : Nat) : ℚ :=
  ((totalRequests : ℚ) - (prevTotal : ℚ)) / (prevTotal : ℚ) * 100

/-- The `request_volume_spike` anomaly dict built by `_detect_anomalies`. -/
def volumeAnomaly (totalRequests prevTotal : Nat) : Anomaly :=
  { type := .request_volume_spike
    severity :=
      if 100 < |changePercentOf totalRequests prevTotal| then .high
      else .medium
    currentValue := some totalRequests
    previousValue := some prevTotal
    failureRate := none
    model := none
    percentage := none }

/-- The volume-spike check of `_detect_anomalies` (runs only with a prior
report, and only when its `totalRequests` is positive). -/
def volumeAnomalies (totalRequests prevTotal : Nat) : List Anomaly :=
  if 0 < prevTotal then
    if 50 < |changePercentOf totalRequests prevTotal| then
      [volumeAnomaly totalRequests prevTotal]
    else []
  else []

/-- The per-model percentage `count / total_requests * 100`. -/
def modelPercentOf (totalRequests count : Nat) : ℚ :=
  (count : ℚ) / (totalRequests : ℚ) * 100

/-- The `model_imbalance` anomaly dict built by `_detect_anomalies`. -/
def imbalanceAnomaly (totalRequests : Nat) (model : String) (count : Nat) :
    Anomaly :=
  { type := .model_imbalance
    severity := .low
    currentValue := none
    previousValue := none
    failureRate := none
    model := some model
    percentage := some (modelPercentOf totalRequests count) }

/-- The model-imbalance loop of `_detect_anomalies` (runs only with a
prior report). -/
def imbalanceAnomalies (totalRequests : Nat)
    (requestsByModel : List (String × Nat)) : List Anomaly :=
  requestsByModel.filterMap (fun mc =>
    if 0 < totalRequests then
      if 80 < modelPercentOf totalRequests mc.2 then
        some (imbalanceAnomaly totalRequests mc.1 mc.2)
      else none
    else none)

/-- `ReportService._detect_anomalies`: look up the report whose
`weekStartDate` equals `start_date - 7d`; with such a prior report, run the
volume-spike, high-failure-rate and model-imbalance checks in that order;
without one (the `elif` fallback), run only the high-failure-rate check. -/
def detect_anomalies (totalRequests failedRequests : Nat)
    (requestsByModel : List (String × Nat)) (startDate : Int)
    (reports : List WeeklyReportDoc) : List Anomaly :=
  let previousWeekStart := startDate - 7
  let previousReport :=
    (reports.filter (fun r => r.weekStartDate = previousWeekStart)).head?
  match previousReport with
  | some prev =>
    volumeAnomalies totalRequests prev.totalRequests ++
      failureAnomalies totalRequests failedRequests ++
      imbalanceAnomalies totalRequests requestsByModel
  | none => failureAnomalies totalRequests failedRequests

/-- A `generation_requests` document as read by the report scan. The
writer (`createGenerationRequest`) always sets these fields, so the
`.get(..., default)` fallbacks of the scan are not modelled. -/
structure StoredRequest where
  status : String
  model : String
  size : String
  style : String
  color : String
  creditsCharged : Int
  createdAt : Int
deriving DecidableEq, Repr

/-- A `credit_transactions` document as read (untyped) by the report scan. -/
structure StoredTransaction where
  type : String
  credits : Int
  timestamp : Int
deriving DecidableEq, Repr

/-- `defaultdict(int)` bump by one. -/
def bumpCount (l : List (String × Nat)) (k : String) : List (String × Nat) :=
  match l.lookup k with
  | some n => setDoc l k (n + 1)
  | none => l ++ [(k, 1)]

/-- `defaultdict(int)` add. -/
def addCredits (l : List (String × Int)) (k : String) (v : Int) :
    List (String × Int) :=
  match l.lookup k with
  | some n => setDoc l k (n + v)
  | none => l ++ [(k, v)]

/-- The counters the request-scan loop of `generate_weekly_report`
accumulates. -/
structure RequestCounters where
  totalRequests : Nat
  successfulRequests : Nat
  failedRequests : Nat
  requestsByModel : List (String × Nat)
  requestsBySize : List (String × Nat)
  requestsByStyle : List (String × Nat)
  requestsByColor : List (String × Nat)
  creditsBySize : List (String × Int)
deriving DecidableEq, Repr

def initialCounters : RequestCounters :=
  { totalRequests := 0
    successfulRequests := 0
    failedRequests := 0
    requestsByModel := []
    requestsBySize := []
    requestsByStyle := []
    requestsByColor := []
    creditsBySize := [] }

/-- The body of the `for doc in requests_query.stream()` loop. -/
def processRequest (acc : RequestCounters) (r : StoredRequest) :
    RequestCounters :=
  { totalRequests := acc.totalRequests + 1
    successfulRequests :=
      if r.status = "completed" then acc.successfulRequests + 1
      else acc.successfulRequests
    failedRequests :=
      if r.status ≠ "completed" ∧ r.status = "failed" then
        acc.failedRequests + 1
      else acc.failedRequests
    requestsByModel := bumpCount acc.requestsByModel r.model
    requestsBySize := bumpCount acc.requestsBySize r.size
    requestsByStyle := bumpCount acc.requestsByStyle r.style
    requestsByColor := bumpCount acc.requestsByColor r.color
    creditsBySize :=
      if r.status = "completed" then
        addCredits acc.creditsBySize r.size r.creditsCharged
      else acc.creditsBySize }

/-- The body of the `for doc in transactions_query.stream()` loop:
`(consumed, refunded)` running sums. -/
def processTransaction (acc : Int × Int) (t : StoredTransaction) :
    Int × Int :=
  if t.type = "deduction" then (acc.1 + t.credits, acc.2)
  else if t.type = "refund" then (acc.1, acc.2 + t.credits)
  else acc

/-- Python `round(x, 2)` at the spec level: two-decimal rounding. -/
def round2 (x : ℚ) : ℚ := ((round (x * 100) : ℤ) : ℚ) / 100

/-- The report document `generate_weekly_report` persists. -/
structure WeeklyReport where
  weekStartDate : Int
  weekEndDate : Int
  totalRequests : Nat
  successfulRequests : Nat
  failedRequests : Nat
  successRate : ℚ
  totalCreditsConsumed : Int
  totalCreditsRefunded : Int
  netCreditsUsed : Int
  requestsByModel : List (String × Nat)
  requestsBySize : List (String × Nat)
  requestsByStyle : List (String × Nat)
  requestsByColor : List (String × Nat)
  creditsBySize : List (String × Int)
  anomalies : List Anomaly
deriving DecidableEq, Repr

/-- The `createdAt`-window query on `generation_requests`
(`[end_date - 7d, end_date)`, half-open). -/
def windowRequests (endDate : Int) (requests : List StoredRequest) :
    List StoredRequest :=
  requests.filter (fun r => endDate - 7 ≤ r.createdAt ∧ r.createdAt < endDate)

/-- The `timestamp`-window query on `credit_transactions`. -/
def windowTransactions (endDate : Int)
    (transactions : List StoredTransaction) : List StoredTransaction :=
  transactions.filter
    (fun t => endDate - 7 ≤ t.timestamp ∧ t.timestamp < endDate)

/-- `ReportService.generate_weekly_report`: `end_date` is now truncated to
the day, `start_date = end_date - 7d`; scan the requests whose `createdAt`
lies in the half-open window, scan the transactions whose `timestamp` does,
detect anomalies, compute the rounded success rate, and assemble the report
document. `requests`, `transactions` and `reports` are the current contents
of the corresponding collections. -/
def generate_weekly_report (endDate : Int) (requests : List StoredRequest)
    (transactions : List StoredTransaction)
    (reports : List WeeklyReportDoc) : WeeklyReport :=
  let startDate := endDate - 7
  let c := (windowRequests endDate requests).foldl processRequest
    initialCounters
  let sums := (windowTransactions endDate transactions).foldl
    processTransaction (0, 0)
  let anomalies :=
    detect_anomalies c.totalRequests c.failedRequests c.requestsByModel
      startDate reports
  let successRate : ℚ :=
    if 0 < c.totalRequests then
      (c.successfulRequests : ℚ) / (c.totalRequests : ℚ) * 100
    else 0
  { weekStartDate := startDate
    weekEndDate := endDate
    totalRequests := c.totalRequests
    successfulRequests := c.successfulRequests
    failedRequests := c.failedRequests
    successRate := round2 successRate
    totalCreditsConsumed := sums.1
    totalCreditsRefunded := sums.2
    netCreditsUsed := sums.1 - sums.2
    requestsByModel := c.requestsByModel
    requestsBySize := c.requestsBySize
    requestsByStyle := c.requestsByStyle
    requestsByColor := c.requestsByColor
    creditsBySize := c.creditsBySize
    anomalies := anomalies }

/-! ## Store and ledger lemmas -/

theorem lookup_setDoc_self {α : Type} (l : List (String × α)) (k : String)
    (v : α) : (setDoc l k v).lookup k = some v := by
  induction l with
  | nil => simp [setDoc, List.lookup]
  | cons p rest ih =>
    by_cases h : p.1 = k
    · simp [setDoc, h, List.lookup]
    · have hne : (k == p.1) = false := beq_eq_false_iff_ne.mpr (Ne.symm h)
      simp [setDoc, h, List.lookup, hne, ih]

theorem lookup_setDoc_ne {α : Type} (l : List (String × α)) (k k2 : String)
    (v : α) (h : k2 ≠ k) : (setDoc l k v).lookup k2 = l.lookup k2 := by
  have hne : (k2 == k) = false := beq_eq_false_iff_ne.mpr h
  induction l with
  | nil => simp [setDoc, List.lookup, hne]
  | cons p rest ih =>
    by_cases hp : p.1 = k
    · subst hp
      simp [setDoc, List.lookup, hne]
    · simp [setDoc, hp, List.lookup, ih]

theorem get_user_credits_eq (s : LedgerState) (u : String) :
    get_user_credits s u = ((s.users.lookup u).getD 0) := by
  unfold get_user_credits
  cases s.users.lookup u <;> rfl

/-- `deduct_credits` succeeds exactly on an existing account with a
sufficient balance. -/
theorem deduct_credits_fst_true_iff (s : LedgerState) (u : String)
    (a : Int) (g : String) :
    (deduct_credits s u a g).1 = true ↔
      ∃ c, s.users.lookup u = some c ∧ a ≤ c := by
  unfold deduct_credits
  cases h : s.users.lookup u with
  | none => simp
  | some c =>
    by_cases hc : c < a
    · simp only [hc, if_true]
      constructor
      · intro hfalse
        exact absurd hfalse (by simp)
      · rintro ⟨c2, hc2, hle⟩
        injection hc2 with hc2
        omega
    · simp only [hc, if_false]
      constructor
      · intro _
        exact ⟨c, rfl, not_lt.mp hc⟩
      · intro _
        trivial

/-- A failing `deduct_credits` performs no writes. -/
theorem deduct_credits_fst_false_state (s : LedgerState) (u : String)
    (a : Int) (g : String) (h : (deduct_credits s u a g).1 = false) :
    (deduct_credits s u a g).2 = s := by
  unfold deduct_credits at h ⊢
  cases hl : s.users.lookup u with
  | none => rfl
  | some c =>
    simp [hl] at h ⊢
    by_cases hc : c < a
    · simp [hc]
    · simp [hc] at h

/-- A successful `deduct_credits` writes the decremented balance and
appends exactly the deduction record. -/
theorem deduct_credits_success_state (s : LedgerState) (u : String)
    (a c : Int) (g : String) (hl : s.users.lookup u = some c) (hc : a ≤ c) :
    (deduct_credits s u a g).2 =
      { users := setDoc s.users u (c - a)
        transactions := s.transactions ++ [deductionRecord u a g] } := by
  unfold deduct_credits
  simp [hl, not_lt.mpr hc]

/-- `refund_credits` always returns `true` in the failure-free model. -/
theorem refund_credits_fst (s : LedgerState) (u : String) (a : Int)
    (g : String) : (refund_credits s u a g).1 = true := rfl

theorem refund_credits_state_existing (s : LedgerState) (u : String)
    (a c : Int) (g : String) (hl : s.users.lookup u = some c) :
    (refund_credits s u a g).2 =
      { users := setDoc s.users u (c + a)
        transactions := s.transactions ++ [refundRecord u a g] } := by
  unfold refund_credits
  simp [hl]

theorem refund_credits_state_missing (s : LedgerState) (u : String)
    (a : Int) (g : String) (hl : s.users.lookup u = none) :
    (refund_credits s u a g).2 =
      { users := setDoc s.users u a
        transactions := s.transactions ++ [refundRecord u a g] } := by
  unfold refund_credits
  simp [hl]

theorem sumByType_append (txs : List CreditTransaction)
    (tx : CreditTransaction) (u : String) (t : TransactionType) :
    sumByType (txs ++ [tx]) u t =
      sumByType txs u t +
        (if tx.userId = u ∧ tx.type = t then tx.credits else 0) := by
  unfold sumByType
  rw [List.filter_append]
  by_cases h : tx.userId = u ∧ tx.type = t
  · simp [h]
  · simp [h]

theorem sumByType_eq_zero_of_filter_nil (txs : List CreditTransaction)
    (u : String) (t : TransactionType)
    (h : txs.filter (fun tx => tx.userId = u) = []) :
    sumByType txs u t = 0 := by
  unfold sumByType
  have hnil : txs.filter (fun tx => tx.userId = u ∧ tx.type = t) = [] := by
    rw [List.filter_eq_nil_iff] at h ⊢
    intro tx htx
    have := h tx htx
    simp at this ⊢
    intro hu
    exact absurd hu this
  rw [hnil]
  simp

/-! ## Ledger-invariant machinery -/

/-- Along the run, every `create_user_with_credits` targets a user with no
existing account document (the at-most-once obligation the spec puts on
callers of `createAccount`). -/
def createsFresh : LedgerState → List LedgerOp → Bool
  | _, [] => true
  | s, op :: rest =>
    (match op with
     | .create u _ => (s.users.lookup u).isNone
     | _ => true) && createsFresh (applyOp s op) rest

/-- The spec's cross-entity accounting equation for one user. -/
def balanceEquation (s : LedgerState) (u : String) : Prop :=
  get_user_credits s u =
    sumByType s.transactions u .credit + sumByType s.transactions u .refund
      - sumByType s.transactions u .deduction

/-- Accounting equation for every user, plus the bookkeeping fact that a
user without an account document has no transaction records. -/
def ledgerAccounting (s : LedgerState) : Prop :=
  ∀ u, balanceEquation s u ∧
    (s.users.lookup u = none →
      s.transactions.filter (fun tx => tx.userId = u) = [])

theorem ledgerAccounting_empty : ledgerAccounting emptyStore := by
  intro u
  constructor
  · simp [balanceEquation, emptyStore, get_user_credits, sumByType,
      List.lookup]
  · intro _
    simp [emptyStore]

theorem filter_userId_append (txs : List CreditTransaction)
    (tx : CreditTransaction) (u : String) :
    (txs ++ [tx]).filter (fun t => t.userId = u) =
      txs.filter (fun t => t.userId = u) ++
        (if tx.userId = u then [tx] else []) := by
  rw [List.filter_append]
  by_cases h : tx.userId = u <;> simp [h]

theorem ledgerAccounting_create (s : LedgerState) (u : String) (n : Int)
    (hInv : ledgerAccounting s) (hFresh : s.users.lookup u = none) :
    ledgerAccounting (applyOp s (.create u n)) := by
  intro u2
  have hstate : applyOp s (.create u n) =
      { users := setDoc s.users u n
        transactions := s.transactions ++ [creditRecord u n] } := rfl
  rw [hstate]
  by_cases h2 : u2 = u
  · subst h2
    have hTx := (hInv u2).2 hFresh
    have hz := fun t => sumByType_eq_zero_of_filter_nil s.transactions u2 t hTx
    constructor
    · show balanceEquation _ u2
      unfold balanceEquation
      rw [get_user_credits_eq]
      simp only [lookup_setDoc_self]
      rw [sumByType_append, sumByType_append, sumByType_append,
        hz .credit, hz .refund, hz .deduction]
      simp [creditRecord]
    · intro hnone
      rw [lookup_setDoc_self] at hnone
      exact absurd hnone (by simp)
  · constructor
    · show balanceEquation _ u2
      unfold balanceEquation
      rw [get_user_credits_eq, lookup_setDoc_ne _ _ _ _ h2,
        sumByType_append, sumByType_append, sumByType_append]
      have hbe := (hInv u2).1
      unfold balanceEquation at hbe
      rw [get_user_credits_eq] at hbe
      simp [creditRecord, h2, Ne.symm h2, hbe]
    · intro hnone
      rw [lookup_setDoc_ne _ _ _ _ h2] at hnone
      rw [filter_userId_append]
      have := (hInv u2).2 hnone
      simp [creditRecord, this, Ne.symm h2]

theorem ledgerAccounting_deduct (s : LedgerState) (u : String) (a : Int)
    (g : String) (hInv : ledgerAccounting s) :
    ledgerAccounting (applyOp s (.deduct u a g)) := by
  cases hl : s.users.lookup u with
  | none =>
    have hstate : applyOp s (.deduct u a g) = s := by
      simp [applyOp, deduct_credits, hl]
    rw [hstate]
    exact hInv
  | some c =>
    by_cases hc : c < a
    · have hstate : applyOp s (.deduct u a g) = s := by
        simp [applyOp, deduct_credits, hl, hc]
      rw [hstate]
      exact hInv
    · have hstate : applyOp s (.deduct u a g) =
          { users := setDoc s.users u (c - a)
            transactions := s.transactions ++ [deductionRecord u a g] } := by
        simp [applyOp, deduct_credits, hl, hc]
      rw [hstate]
      intro u2
      by_cases h2 : u2 = u
      · subst h2
        have hbe := (hInv u2).1
        unfold balanceEquation at hbe
        rw [get_user_credits_eq, hl] at hbe
        constructor
        · show balanceEquation _ u2
          unfold balanceEquation
          rw [get_user_credits_eq]
          simp only [lookup_setDoc_self]
          rw [sumByType_append, sumByType_append, sumByType_append]
          simp [deductionRecord] at hbe ⊢
          omega
        · intro hnone
          rw [lookup_setDoc_self] at hnone
          exact absurd hnone (by simp)
      · have hbe := (hInv u2).1
        unfold balanceEquation at hbe
        rw [get_user_credits_eq] at hbe
        constructor
        · show balanceEquation _ u2
          unfold balanceEquation
          rw [get_user_credits_eq, lookup_setDoc_ne _ _ _ _ h2,
            sumByType_append, sumByType_append, sumByType_append]
          simp [deductionRecord, Ne.symm h2, hbe]
        · intro hnone
          rw [lookup_setDoc_ne _ _ _ _ h2] at hnone
          rw [filter_userId_append]
          have := (hInv u2).2 hnone
          simp [deductionRecord, this, Ne.symm h2]

theorem ledgerAccounting_refund (s : LedgerState) (u : String) (a : Int)
    (g : String) (hInv : ledgerAccounting s) :
    ledgerAccounting (applyOp s (.refund u a g)) := by
  have key : ∀ b : Int,
      (applyOp s (.refund u a g) =
        { users := setDoc s.users u b
          transactions := s.transactions ++ [refundRecord u a g] }) →
      get_user_credits s u + a = b →
      ledgerAccounting (applyOp s (.refund u a g)) := by
    intro b hstate hb
    rw [hstate]
    intro u2
    by_cases h2 : u2 = u
    · subst h2
      have hbe := (hInv u2).1
      unfold balanceEquation at hbe
      constructor
      · show balanceEquation _ u2
        unfold balanceEquation
        rw [get_user_credits_eq]
        simp only [lookup_setDoc_self]
        rw [sumByType_append, sumByType_append, sumByType_append]
        simp [refundRecord]
        omega
      · intro hnone
        rw [lookup_setDoc_self] at hnone
        exact absurd hnone (by simp)
    · have hbe := (hInv u2).1
      unfold balanceEquation at hbe
      rw [get_user_credits_eq] at hbe
      constructor
      · show balanceEquation _ u2
        unfold balanceEquation
        rw [get_user_credits_eq, lookup_setDoc_ne _ _ _ _ h2,
          sumByType_append, sumByType_append, sumByType_append]
        simp [refundRecord, Ne.symm h2, hbe]
      · intro hnone
        rw [lookup_setDoc_ne _ _ _ _ h2] at hnone
        rw [filter_userId_append]
        have := (hInv u2).2 hnone
        simp [refundRecord, this, Ne.symm h2]
  cases hl : s.users.lookup u with
  | none =>
    refine key a ?_ ?_
    · simp [applyOp, refund_credits, hl]
    · rw [get_user_credits_eq, hl]
      simp
  | some c =>
    refine key (c + a) ?_ ?_
    · simp [applyOp, refund_credits, hl]
    · rw [get_user_credits_eq, hl]
      simp

theorem ledgerAccounting_run (ops : List LedgerOp) :
    ∀ s : LedgerState, createsFresh s ops = true → ledgerAccounting s →
      ledgerAccounting (applyOps s ops) := by
  induction ops with
  | nil =>
    intro s _ hInv
    exact hInv
  | cons op rest ih =>
    intro s hFresh hInv
    cases op with
    | create u n =>
      simp only [createsFresh, Bool.and_eq_true] at hFresh
      exact ih _ hFresh.2
        (ledgerAccounting_create s u n hInv
          (Option.isNone_iff_eq_none.mp hFresh.1))
    | deduct u a g =>
      simp only [createsFresh, Bool.and_eq_true, true_and] at hFresh
      exact ih _ hFresh (ledgerAccounting_deduct s u a g hInv)
    | refund u a g =>
      simp only [createsFresh, Bool.and_eq_true, true_and] at hFresh
      exact ih _ hFresh (ledgerAccounting_refund s u a g hInv)

/-! ## Non-negativity machinery -/

theorem lookup_setDoc_cases {α : Type} (l : List (String × α))
    (k k2 : String) (v w : α) (h : (setDoc l k v).lookup k2 = some w) :
    (k2 = k ∧ w = v) ∨ (k2 ≠ k ∧ l.lookup k2 = some w) := by
  by_cases hk : k2 = k
  · subst hk
    rw [lookup_setDoc_self] at h
    exact Or.inl ⟨rfl, (Option.some.inj h).symm⟩
  · rw [lookup_setDoc_ne _ _ _ _ hk] at h
    exact Or.inr ⟨hk, h⟩

/-- Every amount fed to the ledger along the sequence is a positive
integer (the spec's valid charge sequences). -/
def posAmounts : List LedgerOp → Bool
  | [] => true
  | op :: rest =>
    (match op with
     | .create _ n => decide (0 < n)
     | .deduct _ a _ => decide (0 < a)
     | .refund _ a _ => decide (0 < a)) && posAmounts rest

/-- Every stored balance is non-negative. -/
def nonNegBalances (s : LedgerState) : Prop :=
  ∀ u c, s.users.lookup u = some c → 0 ≤ c

theorem nonNegBalances_create (s : LedgerState) (u : String) (n : Int)
    (hInv : nonNegBalances s) (hn : 0 < n) :
    nonNegBalances (applyOp s (.create u n)) := by
  intro u2 c2 h2
  rcases lookup_setDoc_cases _ _ _ _ _ h2 with ⟨_, rfl⟩ | ⟨_, hl⟩
  · omega
  · exact hInv u2 c2 hl

theorem nonNegBalances_deduct (s : LedgerState) (u : String) (a : Int)
    (g : String) (hInv : nonNegBalances s) :
    nonNegBalances (applyOp s (.deduct u a g)) := by
  cases hl : s.users.lookup u with
  | none =>
    have hstate : applyOp s (.deduct u a g) = s := by
      simp [applyOp, deduct_credits, hl]
    rw [hstate]
    exact hInv
  | some c =>
    by_cases hc : c < a
    · have hstate : applyOp s (.deduct u a g) = s := by
        simp [applyOp, deduct_credits, hl, hc]
      rw [hstate]
      exact hInv
    · have hstate : applyOp s (.deduct u a g) =
          { users := setDoc s.users u (c - a)
            transactions := s.transactions ++ [deductionRecord u a g] } := by
        simp [applyOp, deduct_credits, hl, hc]
      rw [hstate]
      intro u2 c2 h2
      rcases lookup_setDoc_cases _ _ _ _ _ h2 with ⟨_, rfl⟩ | ⟨_, hl2⟩
      · have := hInv u c hl
        omega
      · exact hInv u2 c2 hl2

theorem nonNegBalances_refund (s : LedgerState) (u : String) (a : Int)
    (g : String) (hInv : nonNegBalances s) (ha : 0 < a) :
    nonNegBalances (applyOp s (.refund u a g)) := by
  cases hl : s.users.lookup u with
  | none =>
    have hstate : applyOp s (.refund u a g) =
        { users := setDoc s.users u a
          transactions := s.transactions ++ [refundRecord u a g] } := by
      simp [applyOp, refund_credits, hl]
    rw [hstate]
    intro u2 c2 h2
    rcases lookup_setDoc_cases _ _ _ _ _ h2 with ⟨_, rfl⟩ | ⟨_, hl2⟩
    · omega
    · exact hInv u2 c2 hl2
  | some c =>
    have hstate : applyOp s (.refund u a g) =
        { users := setDoc s.users u (c + a)
          transactions := s.transactions ++ [refundRecord u a g] } := by
      simp [applyOp, refund_credits, hl]
    rw [hstate]
    intro u2 c2 h2
    rcases lookup_setDoc_cases _ _ _ _ _ h2 with ⟨_, rfl⟩ | ⟨_, hl2⟩
    · have := hInv u c hl
      omega
    · exact hInv u2 c2 hl2

theorem nonNegBalances_run (ops : List LedgerOp) :
    ∀ s : LedgerState, posAmounts ops = true → nonNegBalances s →
      nonNegBalances (applyOps s ops) := by
  induction ops with
  | nil =>
    intro s _ hInv
    exact hInv
  | cons op rest ih =>
    intro s hPos hInv
    cases op with
    | create u n =>
      simp only [posAmounts, Bool.and_eq_true, decide_eq_true_eq] at hPos
      exact ih _ hPos.2 (nonNegBalances_create s u n hInv hPos.1)
    | deduct u a g =>
      simp only [posAmounts, Bool.and_eq_true, decide_eq_true_eq] at hPos
      exact ih _ hPos.2 (nonNegBalances_deduct s u a g hInv)
    | refund u a g =>
      simp only [posAmounts, Bool.and_eq_true, decide_eq_true_eq] at hPos
      exact ih _ hPos.2 (nonNegBalances_refund s u a g hInv hPos.1)

/-! ## Orchestrator lemmas -/

theorem lookup_updateRequest_self (l : List (String × GenerationRequest))
    (k : String) (f : GenerationRequest → GenerationRequest) :
    (updateRequest l k f).lookup k = (l.lookup k).map f := by
  induction l with
  | nil => rfl
  | cons p rest ih =>
    obtain ⟨pk, pv⟩ := p
    simp only [updateRequest, List.map] at ih ⊢
    by_cases h : pk = k
    · subst h
      rw [if_pos rfl]
      simp [List.lookup]
    · have hne : (k == pk) = false := beq_eq_false_iff_ne.mpr (Ne.symm h)
      rw [if_neg h]
      simp only [List.lookup, hne]
      exact ih

theorem refund_credits_transactions (s : LedgerState) (u : String)
    (a : Int) (g : String) :
    (refund_credits s u a g).2.transactions =
      s.transactions ++ [refundRecord u a g] := rfl

/-! ## Anomaly-detection lemmas -/

theorem failureAnomalies_eq_pos (t f : Nat) (h1 : 0 < t)
    (h2 : 10 < failureRateOf t f) :
    failureAnomalies t f = [failureAnomaly t f] := by
  simp [failureAnomalies, h1, h2]

theorem mem_failureAnomalies (t f : Nat) (a : Anomaly)
    (ha : a ∈ failureAnomalies t f) :
    a = failureAnomaly t f ∧ 0 < t ∧ 10 < failureRateOf t f := by
  unfold failureAnomalies at ha
  by_cases h1 : 0 < t
  · by_cases h2 : 10 < failureRateOf t f
    · rw [if_pos h1, if_pos h2] at ha
      simp at ha
      exact ⟨ha, h1, h2⟩
    · rw [if_pos h1, if_neg h2] at ha
      simp at ha
  · rw [if_neg h1] at ha
    simp at ha

theorem mem_volumeAnomalies_type (t p : Nat) (a : Anomaly)
    (ha : a ∈ volumeAnomalies t p) : a.type = .request_volume_spike := by
  unfold volumeAnomalies at ha
  by_cases h1 : 0 < p
  · by_cases h2 : 50 < |changePercentOf t p|
    · rw [if_pos h1, if_pos h2] at ha
      simp at ha
      rw [ha]
      rfl
    · rw [if_pos h1, if_neg h2] at ha
      simp at ha
  · rw [if_neg h1] at ha
    simp at ha

theorem mem_imbalanceAnomalies_type (t : Nat) (l : List (String × Nat))
    (a : Anomaly) (ha : a ∈ imbalanceAnomalies t l) :
    a.type = .model_imbalance := by
  unfold imbalanceAnomalies at ha
  rw [List.mem_filterMap] at ha
  obtain ⟨mc, _, hmc⟩ := ha
  by_cases h1 : 0 < t
  · by_cases h2 : 80 < modelPercentOf t mc.2
    · rw [if_pos h1, if_pos h2] at hmc
      injection hmc with hmc
      rw [← hmc]
      rfl
    · rw [if_pos h1, if_neg h2] at hmc
      exact absurd hmc (by simp)
  · rw [if_neg h1] at hmc
    exact absurd hmc (by simp)

theorem imbalanceAnomaly_mem (t : Nat) (l : List (String × Nat))
    (mc : String × Nat) (hmem : mc ∈ l) (h1 : 0 < t)
    (h2 : 80 < modelPercentOf t mc.2) :
    imbalanceAnomaly t mc.1 mc.2 ∈ imbalanceAnomalies t l := by
  unfold imbalanceAnomalies
  rw [List.mem_filterMap]
  exact ⟨mc, hmem, by rw [if_pos h1, if_pos h2]⟩

theorem prior_exists_of_lookup (reports : List WeeklyReportDoc) (d : Int)
    (prev : WeeklyReportDoc)
    (h : (reports.filter (fun r => r.weekStartDate = d)).head? = some prev) :
    ∃ r ∈ reports, r.weekStartDate = d := by
  cases hf : reports.filter (fun r => r.weekStartDate = d) with
  | nil =>
    rw [hf] at h
    exact absurd h (by simp)
  | cons x xs =>
    have hx : x ∈ reports.filter (fun r => r.weekStartDate = d) := by
      rw [hf]
      exact List.mem_cons_self x xs
    rw [List.mem_filter] at hx
    exact ⟨x, hx.1, by simpa using hx.2⟩

theorem no_prior_of_lookup_none (reports : List WeeklyReportDoc) (d : Int)
    (h : (reports.filter (fun r => r.weekStartDate = d)).head? = none) :
    ¬ ∃ r ∈ reports, r.weekStartDate = d := by
  rw [List.head?_eq_none_iff] at h
  rintro ⟨r, hr, hd⟩
  have : r ∈ reports.filter (fun r => r.weekStartDate = d) :=
    List.mem_filter.mpr ⟨hr, by simpa using hd⟩
  rw [h] at this
  simp at this

theorem detect_anomalies_of_prior (totalRequests failedRequests : Nat)
    (requestsByModel : List (String × Nat)) (startDate : Int)
    (reports : List WeeklyReportDoc) (prev : WeeklyReportDoc)
    (hprev : (reports.filter
        (fun r => r.weekStartDate = startDate - 7)).head? = some prev) :
    detect_anomalies totalRequests failedRequests requestsByModel startDate
        reports =
      volumeAnomalies totalRequests prev.totalRequests ++
        failureAnomalies totalRequests failedRequests ++
        imbalanceAnomalies totalRequests requestsByModel := by
  simp only [detect_anomalies]
  rw [hprev]

theorem detect_anomalies_of_none (totalRequests failedRequests : Nat)
    (requestsByModel : List (String × Nat)) (startDate : Int)
    (reports : List WeeklyReportDoc)
    (hprev : (reports.filter
        (fun r => r.weekStartDate = startDate - 7)).head? = none) :
    detect_anomalies totalRequests failedRequests requestsByModel startDate
        reports = failureAnomalies totalRequests failedRequests := by
  simp only [detect_anomalies]
  rw [hprev]

/-! ## Report fold lemmas -/

theorem foldl_processRequest_total (l : List StoredRequest) :
    ∀ acc : RequestCounters,
      (l.foldl processRequest acc).totalRequests =
        acc.totalRequests + l.length := by
  induction l with
  | nil => intro acc; simp
  | cons r rest ih =>
    intro acc
    rw [List.foldl_cons, ih]
    simp [processRequest]
    omega

theorem foldl_processRequest_successful (l : List StoredRequest) :
    ∀ acc : RequestCounters,
      (l.foldl processRequest acc).successfulRequests =
        acc.successfulRequests +
          (l.filter (fun r => r.status = "completed")).length := by
  induction l with
  | nil => intro acc; simp
  | cons r rest ih =>
    intro acc
    rw [List.foldl_cons, ih]
    by_cases h : r.status = "completed" <;> simp [processRequest, h] <;> omega

theorem foldl_processRequest_failed (l : List StoredRequest) :
    ∀ acc : RequestCounters,
      (l.foldl processRequest acc).failedRequests =
        acc.failedRequests +
          (l.filter (fun r => r.status = "failed")).length := by
  induction l with
  | nil => intro acc; simp
  | cons r rest ih =>
    intro acc
    rw [List.foldl_cons, ih]
    by_cases h : r.status = "failed"
    · have hne : r.status ≠ "completed" := by rw [h]; decide
      simp [processRequest, h, hne]
      omega
    · simp [processRequest, h]

theorem foldl_processTransaction_eq (l : List StoredTransaction) :
    ∀ acc : Int × Int,
      l.foldl processTransaction acc =
        (acc.1 + ((l.filter (fun t => t.type = "deduction")).map
            (fun t => t.credits)).sum,
         acc.2 + ((l.filter (fun t => t.type = "refund")).map
            (fun t => t.credits)).sum) := by
  induction l with
  | nil => intro acc; simp
  | cons t rest ih =>
    intro acc
    rw [List.foldl_cons, ih]
    by_cases hd : t.type = "deduction"
    · have hr : t.type ≠ "refund" := by rw [hd]; decide
      simp [processTransaction, hd, hr]
      omega
    · by_cases hr : t.type = "refund"
      · simp [processTransaction, hd, hr]
        omega
      · simp [processTransaction, hd, hr]

/-! ## Claim theorems -/

/-- Claim C1: `deduct_credits`, called inside the caller-supplied atomic
transaction, returns true exactly when the account exists with balance ≥
amount; in that case it writes `balance - amount` and appends one deduction
record carrying that amount and that requestId; otherwise it returns false
and performs no writes. (It never raises: the embedding is a total
function, matching the catch-all `except` that converts any raise into a
`False` return.) -/
theorem deduct_credits_charge_contract (s : LedgerState) (u : String)
    (amount : Int) (g : String) :
    ((deduct_credits s u amount g).1 = true ↔
      ∃ c, s.users.lookup u = some c ∧ amount ≤ c) ∧
    (∀ c, s.users.lookup u = some c → amount ≤ c →
      (deduct_credits s u amount g).2 =
        { users := setDoc s.users u (c - amount)
          transactions := s.transactions ++ [deductionRecord u amount g] }) ∧
    ((deduct_credits s u amount g).1 = false →
      (deduct_credits s u amount g).2 = s) ∧
    (deductionRecord u amount g).credits = amount ∧
    (g ≠ "" → (deductionRecord u amount g).generationRequestId = some g) := by
  refine ⟨deduct_credits_fst_true_iff s u amount g, ?_,
    deduct_credits_fst_false_state s u amount g, rfl, ?_⟩
  · intro c hl hle
    exact deduct_credits_success_state s u amount c g hl hle
  · intro hg
    simp [deductionRecord, optReqId, hg]

/-- Witness for C1 at a concrete store: user `u` holds 10 credits, a charge
of 3 succeeds, writes 7 and appends the deduction record. -/
theorem deduct_credits_charge_contract_witness :
    (deduct_credits ⟨[("u", 10)], []⟩ "u" 3 "r1").1 = true ∧
    (deduct_credits ⟨[("u", 10)], []⟩ "u" 3 "r1").2 =
      { users := setDoc [("u", 10)] "u" (10 - 3)
        transactions := [] ++ [deductionRecord "u" 3 "r1"] } := by
  have h := deduct_credits_charge_contract ⟨[("u", 10)], []⟩ "u" 3 "r1"
  exact ⟨h.1.mpr ⟨10, by decide, by decide⟩, h.2.1 10 (by decide) (by decide)⟩

/-- Claim C2 counterexample: two `create_user_with_credits` calls for the
same user (a finite sequence of ledger operations) leave balance 50 but
credit-record sum 100, falsifying the accounting equation as universally
claimed. -/
theorem balance_equation_counterexample :
    ¬ (get_user_credits
        (applyOps emptyStore [LedgerOp.create "u" 50, LedgerOp.create "u" 50])
        "u" =
      sumByType (applyOps emptyStore
          [LedgerOp.create "u" 50, LedgerOp.create "u" 50]).transactions
        "u" .credit +
      sumByType (applyOps emptyStore
          [LedgerOp.create "u" 50, LedgerOp.create "u" 50]).transactions
        "u" .refund -
      sumByType (applyOps emptyStore
          [LedgerOp.create "u" 50, LedgerOp.create "u" 50]).transactions
        "u" .deduction) := by
  decide

/-- Claim C2 (amended): starting from the empty store, after every finite
sequence of ledger operations in which `create_user_with_credits` is only
invoked for users without an existing account document (the at-most-once
obligation the spec places on its callers), every user's stored balance
equals sum(credit) + sum(refund) - sum(deduction) over that user's
transaction records. -/
theorem balance_equation_of_fresh_creates (ops : List LedgerOp)
    (hFresh : createsFresh emptyStore ops = true) :
    ∀ u : String,
      get_user_credits (applyOps emptyStore ops) u =
        sumByType (applyOps emptyStore ops).transactions u .credit +
        sumByType (applyOps emptyStore ops).transactions u .refund -
        sumByType (applyOps emptyStore ops).transactions u .deduction :=
  fun u =>
    (ledgerAccounting_run ops emptyStore hFresh ledgerAccounting_empty u).1

/-- Witness for amended C2 on a concrete run: create, charge, refund,
then a second fresh user. -/
theorem balance_equation_of_fresh_creates_witness :
    createsFresh emptyStore
      [LedgerOp.create "u" 50, LedgerOp.deduct "u" 3 "r1",
       LedgerOp.refund "u" 3 "r1", LedgerOp.create "v" 20] = true ∧
    get_user_credits
        (applyOps emptyStore
          [LedgerOp.create "u" 50, LedgerOp.deduct "u" 3 "r1",
           LedgerOp.refund "u" 3 "r1", LedgerOp.create "v" 20]) "u" =
      sumByType (applyOps emptyStore
          [LedgerOp.create "u" 50, LedgerOp.deduct "u" 3 "r1",
           LedgerOp.refund "u" 3 "r1", LedgerOp.create "v" 20]).transactions
        "u" .credit +
      sumByType (applyOps emptyStore
          [LedgerOp.create "u" 50, LedgerOp.deduct "u" 3 "r1",
           LedgerOp.refund "u" 3 "r1", LedgerOp.create "v" 20]).transactions
        "u" .refund -
      sumByType (applyOps emptyStore
          [LedgerOp.create "u" 50, LedgerOp.deduct "u" 3 "r1",
           LedgerOp.refund "u" 3 "r1", LedgerOp.create "v" 20]).transactions
        "u" .deduction :=
  ⟨by decide, balance_equation_of_fresh_creates _ (by decide) "u"⟩

/-- Claim C3: `refund_credits` (its own atomic transaction) increments the
stored balance when the account exists, creates the account with
`balance = amount` when it does not, always appends exactly one refund
record tagged with the requestId, and returns true — false is reserved for
infrastructure failure, which the failure-free model does not have; the
balance is never consulted. -/
theorem refund_credits_contract (s : LedgerState) (u : String)
    (amount : Int) (g : String) :
    (refund_credits s u amount g).1 = true ∧
    (∀ c, s.users.lookup u = some c →
      (refund_credits s u amount g).2.users.lookup u = some (c + amount)) ∧
    (s.users.lookup u = none →
      (refund_credits s u amount g).2.users.lookup u = some amount) ∧
    (refund_credits s u amount g).2.transactions =
      s.transactions ++ [refundRecord u amount g] ∧
    (refundRecord u amount g).credits = amount ∧
    (g ≠ "" → (refundRecord u amount g).generationRequestId = some g) := by
  refine ⟨rfl, ?_, ?_, rfl, rfl, ?_⟩
  · intro c hl
    rw [refund_credits_state_existing s u amount c g hl]
    exact lookup_setDoc_self _ _ _
  · intro hl
    rw [refund_credits_state_missing s u amount g hl]
    exact lookup_setDoc_self _ _ _
  · intro hg
    simp [refundRecord, optReqId, hg]

/-- Witness for C3: refunding 7 to a user with no account creates the
account with balance 7. -/
theorem refund_credits_contract_witness :
    (refund_credits emptyStore "u" 7 "r1").1 = true ∧
    (refund_credits emptyStore "u" 7 "r1").2.users.lookup "u" = some 7 := by
  have h := refund_credits_contract emptyStore "u" 7 "r1"
  exact ⟨h.1, h.2.2.1 (by decide)⟩

/-- Claim C7: for every operation sequence whose amounts are all positive
integers, every stored balance stays non-negative (so in particular no
committed `deduct_credits` drives a balance below zero). -/
theorem balances_nonneg_of_pos_amounts (ops : List LedgerOp)
    (hPos : posAmounts ops = true) :
    ∀ u c, (applyOps emptyStore ops).users.lookup u = some c → 0 ≤ c :=
  nonNegBalances_run ops emptyStore hPos
    (by intro u c h; simp [emptyStore, List.lookup] at h)

/-- Witness for C7 on a concrete positive-amount run ending at balance 48. -/
theorem balances_nonneg_of_pos_amounts_witness :
    posAmounts
      [LedgerOp.create "u" 50, LedgerOp.deduct "u" 3 "r1",
       LedgerOp.refund "u" 1 "r1"] = true ∧
    (applyOps emptyStore
        [LedgerOp.create "u" 50, LedgerOp.deduct "u" 3 "r1",
         LedgerOp.refund "u" 1 "r1"]).users.lookup "u" = some 48 ∧
    (0 : Int) ≤ 48 :=
  ⟨by decide, by decide,
    balances_nonneg_of_pos_amounts
      [LedgerOp.create "u" 50, LedgerOp.deduct "u" 3 "r1",
       LedgerOp.refund "u" 1 "r1"] (by decide) "u" 48 (by decide)⟩

/-- Claim C10: `deduct_credits` places no lower bound on the amount: for
every existing account and every integer amount with balance ≥ amount —
zero and negative amounts included — it returns true, writes
`balance - amount` (an increase when the amount is negative), and appends
a deduction record carrying exactly that amount. -/
theorem deduct_credits_no_lower_bound (s : LedgerState) (u g : String)
    (amount c : Int) (hl : s.users.lookup u = some c) (hle : amount ≤ c) :
    (deduct_credits s u amount g).1 = true ∧
    (deduct_credits s u amount g).2.users.lookup u = some (c - amount) ∧
    (deduct_credits s u amount g).2.transactions =
      s.transactions ++ [deductionRecord u amount g] ∧
    (deductionRecord u amount g).credits = amount := by
  have hs := deduct_credits_success_state s u amount c g hl hle
  refine ⟨(deduct_credits_fst_true_iff s u amount g).mpr ⟨c, hl, hle⟩,
    ?_, ?_, rfl⟩
  · rw [hs]
    exact lookup_setDoc_self _ _ _
  · rw [hs]

/-- Witness for C10: a deduction of -5 from a balance of 3 succeeds and
raises the balance to 8. -/
theorem deduct_credits_no_lower_bound_witness :
    (⟨[("u", 3)], []⟩ : LedgerState).users.lookup "u" = some 3 ∧
    (-5 : Int) ≤ 3 ∧
    (deduct_credits ⟨[("u", 3)], []⟩ "u" (-5) "r1").1 = true ∧
    (deduct_credits ⟨[("u", 3)], []⟩ "u" (-5) "r1").2.users.lookup "u" =
      some (3 - (-5)) := by
  have h := deduct_credits_no_lower_bound ⟨[("u", 3)], []⟩ "u" "r1" (-5) 3
    (by decide) (by decide)
  exact ⟨by decide, by decide, h.1, h.2.1⟩

/-! ## Validator claims -/

/-- A payload the validator accepts carries a size from `VALID_SIZES`. -/
theorem validate_size_of_valid (data : RequestData)
    (hv : (validate_generation_request data).valid = true) :
    ∃ sz, data.size = some sz ∧ VALID_SIZES.contains sz = true := by
  unfold validate_generation_request at hv
  repeat' split at hv
  all_goals simp_all

set_option maxRecDepth 100000 in
/-- Claim C8 counterexample: a payload whose prompt has length 1001 (1000
letters followed by one space, all other fields valid) is accepted, because
the validator measures the prompt after `strip()`; the claim says every
length-1001 prompt is rejected. -/
theorem prompt_length_boundary_counterexample :
    (String.mk (List.replicate 1000 'a' ++ [' '])).length = 1001 ∧
    (validate_generation_request
        ⟨some "user1", some "Model A", some "realistic", some "vibrant",
         some "1024x1024",
         some (String.mk (List.replicate 1000 'a' ++ [' ']))⟩).valid =
      true := by
  constructor
  · decide
  · decide

/-- Claim C8 (amended): the validator measures the prompt after stripping
leading/trailing whitespace: with all other fields valid and a nonblank
userId, it accepts a payload exactly when the stripped prompt is nonempty
of length at most 1000 — so it accepts whitespace-free prompts of length
1000 and rejects whitespace-free prompts of length 1001, but a length-1001
prompt with trailing whitespace is accepted. Unchanged from the original
claim: `get_credit_cost` returns none for every size outside
{512x512, 1024x1024, 1024x1792} and an integer cost for each of the
three. -/
theorem prompt_length_boundary_amended (uid model style color size p0 : String)
    (huid : (pyStrip uid).isEmpty = false)
    (hm : VALID_MODELS.contains model = true)
    (hst : VALID_STYLES.contains style = true)
    (hco : VALID_COLORS.contains color = true)
    (hsz : VALID_SIZES.contains size = true) :
    ((validate_generation_request
        ⟨some uid, some model, some style, some color, some size,
         some p0⟩).valid = true ↔
      (pyStrip p0).isEmpty = false ∧ (pyStrip p0).length ≤ 1000) ∧
    (∀ sz : String, sz ∉ VALID_SIZES → get_credit_cost sz = none) ∧
    (∀ sz ∈ VALID_SIZES, ∃ c : Int, get_credit_cost sz = some c) := by
  have hm2 : model ∈ VALID_MODELS := by simpa using hm
  have hst2 : style ∈ VALID_STYLES := by simpa using hst
  have hco2 : color ∈ VALID_COLORS := by simpa using hco
  have hsz2 : size ∈ VALID_SIZES := by simpa using hsz
  refine ⟨?_, ?_, ?_⟩
  · by_cases hE : (pyStrip p0).isEmpty
    · have hvfalse : (validate_generation_request
          ⟨some uid, some model, some style, some color, some size,
           some p0⟩).valid = false := by
        simp [validate_generation_request, huid, hm2, hst2, hco2, hsz2, hE]
      refine iff_of_false (by simp [hvfalse]) ?_
      rintro ⟨h1, _⟩
      rw [hE] at h1
      cases h1
    · have hE2 : (pyStrip p0).isEmpty = false := by
        revert hE
        cases (pyStrip p0).isEmpty <;> simp
      by_cases hL : (pyStrip p0).length > 1000
      · have hvfalse : (validate_generation_request
            ⟨some uid, some model, some style, some color, some size,
             some p0⟩).valid = false := by
          simp [validate_generation_request, huid, hm2, hst2, hco2, hsz2, hE, hL]
        refine iff_of_false (by simp [hvfalse]) ?_
        rintro ⟨_, h2⟩
        omega
      · have hvtrue : (validate_generation_request
            ⟨some uid, some model, some style, some color, some size,
             some p0⟩).valid = true := by
          simp [validate_generation_request, huid, hm2, hst2, hco2, hsz2, hE, hL]
        exact iff_of_true hvtrue ⟨hE2, by omega⟩
  · intro sz hsz2
    simp only [VALID_SIZES, List.mem_cons, List.not_mem_nil, or_false,
      not_or] at hsz2
    obtain ⟨h1, h2, h3⟩ := hsz2
    simp [get_credit_cost, CREDIT_COSTS, List.lookup,
      beq_eq_false_iff_ne.mpr h1, beq_eq_false_iff_ne.mpr h2,
      beq_eq_false_iff_ne.mpr h3]
  · intro sz hsz2
    simp only [VALID_SIZES, List.mem_cons, List.not_mem_nil, or_false]
      at hsz2
    rcases hsz2 with h | h | h <;> subst h
    · exact ⟨1, rfl⟩
    · exact ⟨3, rfl⟩
    · exact ⟨4, rfl⟩

set_option maxRecDepth 100000 in
/-- Witness for amended C8: a whitespace-free prompt of length 1000 is
accepted. -/
theorem prompt_length_boundary_amended_witness :
    (validate_generation_request
        ⟨some "user1", some "Model A", some "realistic", some "vibrant",
         some "1024x1024",
         some (String.mk (List.replicate 1000 'a'))⟩).valid = true :=
  (prompt_length_boundary_amended "user1" "Model A" "realistic" "vibrant"
      "1024x1024" (String.mk (List.replicate 1000 'a'))
      (by decide) (by decide) (by decide) (by decide) (by decide)).1.mpr
    (by decide)

/-- Claim C9: every payload the validator accepts has a size for which
`get_credit_cost` returns an integer (never none) — validation only admits
sizes from the list indexing the cost table, so the balance comparison in
`createGenerationRequest` never compares an integer with none. -/
theorem accepted_payload_has_cost (data : RequestData)
    (hv : (validate_generation_request data).valid = true) :
    ∃ c : Int, get_credit_cost (data.size.getD "") = some c := by
  obtain ⟨sz, hsz, hmem⟩ := validate_size_of_valid data hv
  rw [hsz]
  simp only [Option.getD_some]
  have hor : sz = "512x512" ∨ sz = "1024x1024" ∨ sz = "1024x1792" := by
    simpa [VALID_SIZES] using hmem
  rcases hor with h | h | h <;> subst h
  · exact ⟨1, rfl⟩
  · exact ⟨3, rfl⟩
  · exact ⟨4, rfl⟩

/-- Witness for C9 on a concrete accepted payload (size 1024x1024). -/
theorem accepted_payload_has_cost_witness :
    (validate_generation_request
        ⟨some "user1", some "Model A", some "realistic", some "vibrant",
         some "1024x1024", some "A beautiful sunset"⟩).valid = true ∧
    ∃ c : Int,
      get_credit_cost
        ((⟨some "user1", some "Model A", some "realistic", some "vibrant",
           some "1024x1024",
           some "A beautiful sunset"⟩ : RequestData).size.getD "") =
        some c :=
  ⟨by decide,
    accepted_payload_has_cost
      ⟨some "user1", some "Model A", some "realistic", some "vibrant",
       some "1024x1024", some "A beautiful sunset"⟩ (by decide)⟩

/-! ## Report-engine claims -/

/-- Claim C5: in `_detect_anomalies`, a `high_failure_rate` anomaly
(severity high when the rate exceeds 20, else medium) is emitted exactly
when `total > 0` and `failed/total*100 > 10`, whether or not a prior report
with `weekStartDate = currentWeekStart - 7d` exists (the standalone
fallback covers the no-prior case); `model_imbalance` (one per model whose
share exceeds 80%, severity low) and `request_volume_spike` anomalies are
emitted only when such a prior report exists. -/
theorem anomaly_gating (totalRequests failedRequests : Nat)
    (requestsByModel : List (String × Nat)) (startDate : Int)
    (reports : List WeeklyReportDoc) :
    ((0 < totalRequests ∧
        10 < failureRateOf totalRequests failedRequests) →
      ∃ a ∈ detect_anomalies totalRequests failedRequests requestsByModel
          startDate reports,
        a.type = .high_failure_rate ∧
        a.severity =
          (if 20 < failureRateOf totalRequests failedRequests then
            Severity.high
          else Severity.medium)) ∧
    ((∃ a ∈ detect_anomalies totalRequests failedRequests requestsByModel
          startDate reports, a.type = .high_failure_rate) →
      0 < totalRequests ∧
        10 < failureRateOf totalRequests failedRequests) ∧
    ((∃ a ∈ detect_anomalies totalRequests failedRequests requestsByModel
          startDate reports, a.type = .model_imbalance) →
      ∃ r ∈ reports, r.weekStartDate = startDate - 7) ∧
    ((∃ a ∈ detect_anomalies totalRequests failedRequests requestsByModel
          startDate reports, a.type = .request_volume_spike) →
      ∃ r ∈ reports, r.weekStartDate = startDate - 7) ∧
    ((∃ r ∈ reports, r.weekStartDate = startDate - 7) → 0 < totalRequests →
      ∀ mc ∈ requestsByModel,
        80 < modelPercentOf totalRequests mc.2 →
        ∃ a ∈ detect_anomalies totalRequests failedRequests requestsByModel
            startDate reports,
          a.type = .model_imbalance ∧ a.model = some mc.1 ∧
          a.severity = .low) := by
  cases hprev : (reports.filter
      (fun r => r.weekStartDate = startDate - 7)).head? with
  | none =>
    rw [detect_anomalies_of_none totalRequests failedRequests
      requestsByModel startDate reports hprev]
    refine ⟨?_, ?_, ?_, ?_, ?_⟩
    · rintro ⟨h1, h2⟩
      rw [failureAnomalies_eq_pos totalRequests failedRequests h1 h2]
      exact ⟨failureAnomaly totalRequests failedRequests, by simp, rfl, rfl⟩
    · rintro ⟨a, ha, _⟩
      exact (mem_failureAnomalies _ _ a ha).2
    · rintro ⟨a, ha, hat⟩
      rw [(mem_failureAnomalies _ _ a ha).1] at hat
      simp [failureAnomaly] at hat
    · rintro ⟨a, ha, hat⟩
      rw [(mem_failureAnomalies _ _ a ha).1] at hat
      simp [failureAnomaly] at hat
    · intro hex
      exact absurd hex (no_prior_of_lookup_none reports _ hprev)
  | some prev =>
    rw [detect_anomalies_of_prior totalRequests failedRequests
      requestsByModel startDate reports prev hprev]
    have hPriorEx : ∃ r ∈ reports, r.weekStartDate = startDate - 7 :=
      prior_exists_of_lookup reports _ prev hprev
    refine ⟨?_, ?_, ?_, ?_, ?_⟩
    · rintro ⟨h1, h2⟩
      refine ⟨failureAnomaly totalRequests failedRequests, ?_, rfl, rfl⟩
      rw [failureAnomalies_eq_pos totalRequests failedRequests h1 h2]
      simp
    · rintro ⟨a, ha, hat⟩
      rcases List.mem_append.mp ha with hvf | hi
      · rcases List.mem_append.mp hvf with hv | hf
        · rw [mem_volumeAnomalies_type _ _ a hv] at hat
          simp at hat
        · exact (mem_failureAnomalies _ _ a hf).2
      · rw [mem_imbalanceAnomalies_type _ _ a hi] at hat
        simp at hat
    · intro _
      exact hPriorEx
    · intro _
      exact hPriorEx
    · intro _ h1 mc hmc hpc
      refine ⟨imbalanceAnomaly totalRequests mc.1 mc.2, ?_, rfl, rfl, rfl⟩
      have := imbalanceAnomaly_mem totalRequests requestsByModel mc hmc h1 hpc
      simp [List.mem_append, this]

/-- Witness for C5: 3 failures out of 10 requests (rate 30%) with a prior
report present yields a high-severity `high_failure_rate` anomaly. -/
theorem anomaly_gating_witness :
    (0 < 10 ∧ (10 : ℚ) < failureRateOf 10 3) ∧
    ∃ a ∈ detect_anomalies 10 3 [("Model A", 9)] 7 [⟨0, 4⟩],
      a.type = .high_failure_rate ∧
      a.severity =
        (if 20 < failureRateOf 10 3 then Severity.high
        else Severity.medium) :=
  ⟨⟨by norm_num, by norm_num [failureRateOf]⟩,
    (anomaly_gating 10 3 [("Model A", 9)] 7 [⟨0, 4⟩]).1
      ⟨by norm_num, by norm_num [failureRateOf]⟩⟩

/-- Claim C6: the generated report's `successRate` equals
`successful/total*100` rounded to two decimals (0 when the window holds no
requests); `totalCreditsConsumed` and `totalCreditsRefunded` are the sums
of `credits` over the window's deduction- resp. refund-type transactions
(`credit`-type records enter neither sum); and
`netCreditsUsed = totalCreditsConsumed - totalCreditsRefunded`. -/
theorem report_aggregates (endDate : Int) (requests : List StoredRequest)
    (transactions : List StoredTransaction)
    (reports : List WeeklyReportDoc) :
    (generate_weekly_report endDate requests transactions
        reports).successRate =
      (if (windowRequests endDate requests).length = 0 then 0
       else round2
        ((((windowRequests endDate requests).filter
            (fun r => r.status = "completed")).length : ℚ) /
          ((windowRequests endDate requests).length : ℚ) * 100)) ∧
    (generate_weekly_report endDate requests transactions
        reports).totalCreditsConsumed =
      (((windowTransactions endDate transactions).filter
          (fun t => t.type = "deduction")).map (fun t => t.credits)).sum ∧
    (generate_weekly_report endDate requests transactions
        reports).totalCreditsRefunded =
      (((windowTransactions endDate transactions).filter
          (fun t => t.type = "refund")).map (fun t => t.credits)).sum ∧
    (generate_weekly_report endDate requests transactions
        reports).netCreditsUsed =
      (generate_weekly_report endDate requests transactions
          reports).totalCreditsConsumed -
        (generate_weekly_report endDate requests transactions
            reports).totalCreditsRefunded := by
  unfold generate_weekly_report
  simp only [foldl_processRequest_total, foldl_processRequest_successful,
    foldl_processTransaction_eq, initialCounters]
  refine ⟨?_, by simp, by simp, by simp⟩
  by_cases h : (windowRequests endDate requests).length = 0
  · simp [h, round2]
  · have hpos : 0 < (windowRequests endDate requests).length := by omega
    simp [h, hpos]

/-- Witness for C6, after the spec's Scenario 4: six window requests
(3 completed, 2 failed, 1 pending), deductions summing 15 and refunds
summing 5 give `successRate = 50` and `netCreditsUsed = 10`. -/
theorem report_aggregates_witness :
    (generate_weekly_report 7
        [⟨"completed", "Model A", "1024x1024", "anime", "vibrant", 3, 1⟩,
         ⟨"completed", "Model A", "1024x1024", "anime", "vibrant", 3, 1⟩,
         ⟨"completed", "Model B", "512x512", "anime", "vibrant", 1, 2⟩,
         ⟨"failed", "Model A", "1024x1792", "anime", "vibrant", 4, 2⟩,
         ⟨"failed", "Model B", "1024x1024", "anime", "vibrant", 3, 3⟩,
         ⟨"pending", "Model A", "1024x1024", "anime", "vibrant", 3, 3⟩]
        [⟨"deduction", 3, 1⟩, ⟨"deduction", 3, 1⟩, ⟨"deduction", 1, 2⟩,
         ⟨"deduction", 4, 2⟩, ⟨"deduction", 4, 3⟩, ⟨"refund", 4, 2⟩,
         ⟨"refund", 1, 3⟩, ⟨"credit", 50, 1⟩]
        []).successRate =
      (if ((windowRequests 7
          [⟨"completed", "Model A", "1024x1024", "anime", "vibrant", 3, 1⟩,
           ⟨"completed", "Model A", "1024x1024", "anime", "vibrant", 3, 1⟩,
           ⟨"completed", "Model B", "512x512", "anime", "vibrant", 1, 2⟩,
           ⟨"failed", "Model A", "1024x1792", "anime", "vibrant", 4, 2⟩,
           ⟨"failed", "Model B", "1024x1024", "anime", "vibrant", 3, 3⟩,
           ⟨"pending", "Model A", "1024x1024", "anime", "vibrant", 3, 3⟩])).length
          = 0 then 0
       else round2
        ((((windowRequests 7
            [⟨"completed", "Model A", "1024x1024", "anime", "vibrant", 3, 1⟩,
             ⟨"completed", "Model A", "1024x1024", "anime", "vibrant", 3, 1⟩,
             ⟨"completed", "Model B", "512x512", "anime", "vibrant", 1, 2⟩,
             ⟨"failed", "Model A", "1024x1792", "anime", "vibrant", 4, 2⟩,
             ⟨"failed", "Model B", "1024x1024", "anime", "vibrant", 3, 3⟩,
             ⟨"pending", "Model A", "1024x1024", "anime", "vibrant", 3, 3⟩]).filter
            (fun r => r.status = "completed")).length : ℚ) /
          ((windowRequests 7
            [⟨"completed", "Model A", "1024x1024", "anime", "vibrant", 3, 1⟩,
             ⟨"completed", "Model A", "1024x1024", "anime", "vibrant", 3, 1⟩,
             ⟨"completed", "Model B", "512x512", "anime", "vibrant", 1, 2⟩,
             ⟨"failed", "Model A", "1024x1792", "anime", "vibrant", 4, 2⟩,
             ⟨"failed", "Model B", "1024x1024", "anime", "vibrant", 3, 3⟩,
             ⟨"pending", "Model A", "1024x1024", "anime", "vibrant", 3, 3⟩]).length
            : ℚ) * 100)) ∧
    (generate_weekly_report 7
        [⟨"completed", "Model A", "1024x1024", "anime", "vibrant", 3, 1⟩,
         ⟨"completed", "Model A", "1024x1024", "anime", "vibrant", 3, 1⟩,
         ⟨"completed", "Model B", "512x512", "anime", "vibrant", 1, 2⟩,
         ⟨"failed", "Model A", "1024x1792", "anime", "vibrant", 4, 2⟩,
         ⟨"failed", "Model B", "1024x1024", "anime", "vibrant", 3, 3⟩,
         ⟨"pending", "Model A", "1024x1024", "anime", "vibrant", 3, 3⟩]
        [⟨"deduction", 3, 1⟩, ⟨"deduction", 3, 1⟩, ⟨"deduction", 1, 2⟩,
         ⟨"deduction", 4, 2⟩, ⟨"deduction", 4, 3⟩, ⟨"refund", 4, 2⟩,
         ⟨"refund", 1, 3⟩, ⟨"credit", 50, 1⟩]
        []).successRate = 50 ∧
    (generate_weekly_report 7
        [⟨"completed", "Model A", "1024x1024", "anime", "vibrant", 3, 1⟩,
         ⟨"completed", "Model A", "1024x1024", "anime", "vibrant", 3, 1⟩,
         ⟨"completed", "Model B", "512x512", "anime", "vibrant", 1, 2⟩,
         ⟨"failed", "Model A", "1024x1792", "anime", "vibrant", 4, 2⟩,
         ⟨"failed", "Model B", "1024x1024", "anime", "vibrant", 3, 3⟩,
         ⟨"pending", "Model A", "1024x1024", "anime", "vibrant", 3, 3⟩]
        [⟨"deduction", 3, 1⟩, ⟨"deduction", 3, 1⟩, ⟨"deduction", 1, 2⟩,
         ⟨"deduction", 4, 2⟩, ⟨"deduction", 4, 3⟩, ⟨"refund", 4, 2⟩,
         ⟨"refund", 1, 3⟩, ⟨"credit", 50, 1⟩]
        []).netCreditsUsed = 10 := by
  refine ⟨(report_aggregates 7 _ _ []).1, ?_, by decide⟩
  rw [(report_aggregates 7
    [⟨"completed", "Model A", "1024x1024", "anime", "vibrant", 3, 1⟩,
     ⟨"completed", "Model A", "1024x1024", "anime", "vibrant", 3, 1⟩,
     ⟨"completed", "Model B", "512x512", "anime", "vibrant", 1, 2⟩,
     ⟨"failed", "Model A", "1024x1792", "anime", "vibrant", 4, 2⟩,
     ⟨"failed", "Model B", "1024x1024", "anime", "vibrant", 3, 3⟩,
     ⟨"pending", "Model A", "1024x1024", "anime", "vibrant", 3, 3⟩]
    [⟨"deduction", 3, 1⟩, ⟨"deduction", 3, 1⟩, ⟨"deduction", 1, 2⟩,
     ⟨"deduction", 4, 2⟩, ⟨"deduction", 4, 3⟩, ⟨"refund", 4, 2⟩,
     ⟨"refund", 1, 3⟩, ⟨"credit", 50, 1⟩] []).1]
  norm_num +decide [windowRequests, round2, round_eq]

/-! ## Orchestrator claim -/

/-- Claim C4: for a request that passes validation and whose charge
transaction commits, a gateway failure makes `createGenerationRequest`
set the request record to status `failed` with the error and a completion
timestamp, append the compensating refund of the full charged amount
tagged with this request's id right after the deduction (so the refund
restores the pre-charge balance), and answer 500 with
`creditsRefunded` equal to the charged amount. -/
theorem gateway_failure_refund_path (s : DbState) (data : RequestData)
    (requestId err : String) (now : Int) (cost : Int)
    (hv : (validate_generation_request data).valid = true)
    (hcost : get_credit_cost (data.size.getD "") = some cost)
    (hbal : ¬ get_user_credits s.ledger (data.userId.getD "") < cost)
    (hded : (deduct_credits s.ledger (data.userId.getD "") cost
        requestId).1 = true) :
    (createGenerationRequest s data requestId (.failure err) now).1 =
      ⟨500, .generationFailed err cost⟩ ∧
    (∃ r : GenerationRequest,
      (createGenerationRequest s data requestId (.failure err)
          now).2.requests.lookup requestId = some r ∧
      r.status = .failed ∧ r.error = some err ∧ r.completedAt = some now ∧
      r.creditsCharged = cost) ∧
    (createGenerationRequest s data requestId (.failure err)
        now).2.ledger.transactions =
      s.ledger.transactions ++
        [deductionRecord (data.userId.getD "") cost requestId,
         refundRecord (data.userId.getD "") cost requestId] ∧
    get_user_credits
        (createGenerationRequest s data requestId (.failure err)
          now).2.ledger (data.userId.getD "") =
      get_user_credits s.ledger (data.userId.getD "") := by
  obtain ⟨c0, hl, hle⟩ := (deduct_credits_fst_true_iff s.ledger
    (data.userId.getD "") cost requestId).mp hded
  have hD := deduct_credits_success_state s.ledger (data.userId.getD "")
    cost c0 requestId hl hle
  have hpair : deduct_credits s.ledger (data.userId.getD "") cost requestId =
      (true,
        { users := setDoc s.ledger.users (data.userId.getD "") (c0 - cost)
          transactions := s.ledger.transactions ++
            [deductionRecord (data.userId.getD "") cost requestId] }) :=
    Prod.ext_iff.mpr ⟨hded, hD⟩
  unfold createGenerationRequest
  simp only [hv, Bool.true_eq_false, if_false, hcost, hbal, hpair]
  refine ⟨trivial, ?_, ?_, ?_⟩
  · rw [lookup_updateRequest_self, lookup_setDoc_self]
    exact ⟨_, rfl, rfl, rfl, rfl, rfl⟩
  · rw [refund_credits_transactions]
    simp
  · rw [refund_credits_state_existing _ _ cost (c0 - cost) requestId
      (lookup_setDoc_self _ _ _)]
    rw [get_user_credits_eq, get_user_credits_eq, lookup_setDoc_self, hl]
    simp

/-- Witness for C4: user `u` with balance 10 and a valid 1024x1024 request
(cost 3) whose gateway call fails ends with balance 10, a failed request
record, and a 500 response reporting 3 refunded credits. -/
theorem gateway_failure_refund_path_witness :
    (validate_generation_request
        ⟨some "u", some "Model A", some "realistic", some "vibrant",
         some "1024x1024", some "A beautiful sunset"⟩).valid = true ∧
    (createGenerationRequest
        ⟨⟨[("u", 10)], []⟩, []⟩
        ⟨some "u", some "Model A", some "realistic", some "vibrant",
         some "1024x1024", some "A beautiful sunset"⟩
        "req1" (.failure "boom") 5).1 =
      ⟨500, .generationFailed "boom" 3⟩ ∧
    get_user_credits
        (createGenerationRequest
          ⟨⟨[("u", 10)], []⟩, []⟩
          ⟨some "u", some "Model A", some "realistic", some "vibrant",
           some "1024x1024", some "A beautiful sunset"⟩
          "req1" (.failure "boom") 5).2.ledger "u" =
      get_user_credits (⟨[("u", 10)], []⟩ : LedgerState) "u" := by
  have h := gateway_failure_refund_path ⟨⟨[("u", 10)], []⟩, []⟩
    ⟨some "u", some "Model A", some "realistic", some "vibrant",
     some "1024x1024", some "A beautiful sunset"⟩
    "req1" "boom" 5 3 (by decide) (by decide) (by decide) (by decide)
  exact ⟨by decide, h.1, h.2.2.2⟩

end CaseStudy
